import Mathlib

/-!
Verification development for the invoice extraction and validation system.

The definitions below are a shallow embedding of the Python sources
`invoice_qc/validator.py`, `invoice_qc/schemas.py` and `invoice_qc/extractor.py`:

* Python `Decimal` amounts are modelled as `ℚ` (Decimal arithmetic on the
  operations used — addition, subtraction, division, comparison — is exact
  rational arithmetic; `Decimal(str(0.02))` is exactly `1/50`).
* Python `datetime.date` values are modelled as integers (day ordinals);
  only their ordering and their injective string form are ever used.
* Python strings are Lean `String`s; the handful of string methods the code
  uses (`strip`, `upper`, `lower`, `replace`, substring test) are defined
  below on the character list so that everything reduces in the kernel.
  Character classes are the ASCII ones, matching the data the code handles.
* Python truthiness is modelled explicitly: `None`, the empty string,
  `Decimal(0)`, `0.0` and the empty list are falsy.
* Mutation of the validator state (`ValidationResult` accumulation and the
  duplicate `seen` set) is modelled by explicit state passing on `ValState`.
-/

/-! ## String helpers (character-list based models of the Python methods) -/

/-- Model of `str.strip()`: drop leading and trailing whitespace. -/
def pyStripList (l : List Char) : List Char :=
  ((l.dropWhile Char.isWhitespace).reverse.dropWhile Char.isWhitespace).reverse

/-- Model of `str.strip()` on `String`. -/
def pyStrip (s : String) : String := ⟨pyStripList s.data⟩

/-- Model of `str.upper()` (ASCII). -/
def pyUpper (s : String) : String := ⟨s.data.map Char.toUpper⟩

/-- Model of `str.lower()` (ASCII). -/
def pyLower (s : String) : String := ⟨s.data.map Char.toLower⟩

/-- Model of `str.replace(old, new)` for a one-character `old`:
each occurrence of the character is replaced by the given char list. -/
def pyReplaceChar (c : Char) (r : List Char) (s : String) : String :=
  ⟨s.data.flatMap (fun x => if x = c then r else [x])⟩

/-- Does the char list start with the given pattern? -/
def startsWithChars : List Char → List Char → Bool
  | [], _ => true
  | _ :: _, [] => false
  | p :: ps, c :: cs => p == c && startsWithChars ps cs

/-- Model of the Python substring test `pat in s` on char lists. -/
def containsChars (pat : List Char) : List Char → Bool
  | [] => pat.isEmpty
  | c :: cs => startsWithChars pat (c :: cs) || containsChars pat cs

/-- Model of the Python substring test `pat in s`. -/
def pyContains (s pat : String) : Bool := containsChars pat.data s.data

/-- Numeric value of a digit list (most significant first). -/
def digitsToNat (l : List Char) : ℕ :=
  l.foldl (fun a c => 10 * a + (c.toNat - 48)) 0

/-- Split a char list at every occurrence of the separator character
(the semantics of `str.split(sep)` / the separator structure of the
`strptime` layouts used below). -/
def splitSep (sep : Char) : List Char → List (List Char)
  | [] => [[]]
  | c :: cs =>
    if c = sep then [] :: splitSep sep cs
    else
      match splitSep sep cs with
      | [] => [[c]]
      | h :: t => (c :: h) :: t

/-! ## Data model (schemas.py) -/

/-- `schemas.LineItem`.  `quantity` and `tax_rate` are Python floats and
`unit_price`/`line_total` are Decimals; all are modelled as `ℚ`. -/
structure LineItem where
  description : Option String
  quantity : Option ℚ
  unit_price : Option ℚ
  line_total : Option ℚ
  tax_rate : Option ℚ
deriving Repr, DecidableEq

/-- `schemas.Invoice`.  Dates are day ordinals (`Int`); amounts are `ℚ`.
`line_items` has default `[]` in the source; a `None` value and an empty
list are observationally identical in every use (truthiness), so the field
is modelled as a plain list. -/
structure Invoice where
  invoice_number : Option String
  external_reference : Option String
  seller_name : Option String
  seller_address : Option String
  seller_tax_id : Option String
  buyer_name : Option String
  buyer_address : Option String
  buyer_tax_id : Option String
  invoice_date : Option Int
  due_date : Option Int
  currency : Option String
  net_total : Option ℚ
  tax_amount : Option ℚ
  tax_rate : Option ℚ
  gross_total : Option ℚ
  payment_terms : Option String
  line_items : List LineItem
  source_file : Option String
deriving Repr, DecidableEq

/-- `schemas.ValidationError` (also used for warnings, as in the source). -/
structure VError where
  rule : String
  field : Option String
  message : String
  severity : String
deriving Repr, DecidableEq

/-- `schemas.ValidationResult`. -/
structure ValidationResult where
  invoice_id : String
  is_valid : Bool
  errors : List VError
  warnings : List VError
deriving Repr, DecidableEq

/-- `ValidationResult.add_error`: append the error and clear the flag. -/
def add_error (r : ValidationResult) (rule : String) (message : String)
    (field : Option String) : ValidationResult :=
  { r with errors := r.errors ++ [⟨rule, field, message, "error"⟩], is_valid := false }

/-- `ValidationResult.add_warning`: append the warning; the flag is untouched. -/
def add_warning (r : ValidationResult) (rule : String) (message : String)
    (field : Option String) : ValidationResult :=
  { r with warnings := r.warnings ++ [⟨rule, field, message, "warning"⟩] }

/-- `schemas.ValidationSummary`.  The Python dicts (insertion-ordered,
update-in-place) are modelled as association lists. -/
structure ValidationSummary where
  total_invoices : ℕ
  valid_invoices : ℕ
  invalid_invoices : ℕ
  invoices_with_warnings : ℕ
  error_counts : List (String × ℕ)
  warning_counts : List (String × ℕ)
deriving Repr, DecidableEq

/-- `schemas.ValidationReport` (the `generated_at` timestamp is a wall-clock
value outside the logical content and is omitted). -/
structure ValidationReport where
  summary : ValidationSummary
  results : List ValidationResult
deriving Repr, DecidableEq

/-! ## Truthiness helpers -/

/-- Python truthiness of an optional string (`None` and `""` are falsy). -/
def truthyStr : Option String → Bool
  | none => false
  | some s => s ≠ ""

/-- Python truthiness of an optional number (`None` and `0` are falsy). -/
def truthyQ : Option ℚ → Bool
  | none => false
  | some v => v ≠ 0

/-- `invoice.invoice_number or invoice.source_file or "UNKNOWN"`:
Python `or` chain on optional strings. -/
def orElseStr (x : Option String) (y : String) : String :=
  match x with
  | some s => if s = "" then y else s
  | none => y

/-! ## Validator (validator.py) -/

/-- The closed currency set `[c.value for c in Currency]` (schemas.Currency). -/
def currencyValues : List String := ["EUR", "USD", "INR", "GBP"]

/-- `InvoiceValidator._amounts_match` with the configured tolerance
(`Decimal(str(self.tolerance))`) passed explicitly. -/
def amounts_match (tol : ℚ) (amount1 amount2 : ℚ) : Bool :=
  if amount1 = 0 ∧ amount2 = 0 then true
  else if amount1 = 0 ∨ amount2 = 0 then |amount1 - amount2| < 1/100
  else |amount1 - amount2| / ((|amount1| + |amount2|) / 2) ≤ tol

/-- `InvoiceValidator._is_reasonable_date`, with `date.today()` passed in:
within `today - 365*10` days and `today + 365*2` days. -/
def is_reasonable_date (today : Int) (check_date : Int) : Bool :=
  today - 3650 ≤ check_date ∧ check_date ≤ today + 730

/-- `str(invoice.invoice_date)` as used in the duplicate key.  Python
prints `None` for an absent date and the ISO form for a date; only
injectivity of the form matters and `toString` on the ordinal is injective. -/
def date_str : Option Int → String
  | none => "None"
  | some d => toString d

/-- The duplicate-detection key:
`(number.strip().upper(), seller.strip().upper(), str(invoice_date))`. -/
def dup_key (n s : String) (d : Option Int) : String × String × String :=
  (pyUpper (pyStrip n), pyUpper (pyStrip s), date_str d)

/-- The mutable state of one validation pass: the invoice being read,
the result being accumulated, and the validator's `seen_invoices` set
(modelled as a duplicate-free-by-construction list). -/
structure ValState where
  invoice : Invoice
  result : ValidationResult
  seen : List (String × String × String)
deriving Repr, DecidableEq

/-- `not x or not x.strip()` on an optional string field. -/
def isBlank : Option String → Bool
  | none => true
  | some s => s = "" ∨ (pyStrip s) = ""

/-- Append an error to the result inside the state. -/
def stErr (st : ValState) (rule message : String) (field : Option String) : ValState :=
  { st with result := add_error st.result rule message field }

/-- Append a warning to the result inside the state. -/
def stWarn (st : ValState) (rule message : String) (field : Option String) : ValState :=
  { st with result := add_warning st.result rule message field }

/-- Completeness rule 1: invoice number non-empty. -/
def check_invoice_number (st : ValState) : ValState :=
  if isBlank st.invoice.invoice_number then
    stErr st "invoice_number_required"
      "Invoice number is required and cannot be empty" (some "invoice_number")
  else st

/-- Completeness rule 2: invoice date present. -/
def check_invoice_date (st : ValState) : ValState :=
  if st.invoice.invoice_date = none then
    stErr st "invoice_date_required" "Invoice date is required" (some "invoice_date")
  else st

/-- Completeness rule 3a: seller name non-empty. -/
def check_seller_name (st : ValState) : ValState :=
  if isBlank st.invoice.seller_name then
    stErr st "seller_name_required"
      "Seller name is required and cannot be empty" (some "seller_name")
  else st

/-- Completeness rule 3b: buyer name non-empty. -/
def check_buyer_name (st : ValState) : ValState :=
  if isBlank st.invoice.buyer_name then
    stErr st "buyer_name_required"
      "Buyer name is required and cannot be empty" (some "buyer_name")
  else st

/-- Completeness rule 4: gross total present. -/
def check_gross_total (st : ValState) : ValState :=
  if st.invoice.gross_total = none then
    stErr st "gross_total_required"
      "Gross total (final amount) is required" (some "gross_total")
  else st

/-- `InvoiceValidator._validate_completeness`: the five checks in order. -/
def validate_completeness (st : ValState) : ValState :=
  check_gross_total (check_buyer_name (check_seller_name
    (check_invoice_date (check_invoice_number st))))

/-- Format rule: currency, when truthy, must be in the closed set. -/
def check_currency (st : ValState) : ValState :=
  if truthyStr st.invoice.currency ∧
      (st.invoice.currency.getD "") ∉ currencyValues then
    stErr st "invalid_currency"
      "Currency is not in known set (EUR, USD, INR, GBP)" (some "currency")
  else st

/-- Format rule: invoice date, when present, must be reasonable (warning). -/
def check_invoice_date_range (today : Int) (st : ValState) : ValState :=
  match st.invoice.invoice_date with
  | some d =>
    if ¬ is_reasonable_date today d then
      stWarn st "unreasonable_invoice_date"
        "Invoice date seems unreasonable (too far in past/future)"
        (some "invoice_date")
    else st
  | none => st

/-- Format rule: due date, when present, must be reasonable (warning). -/
def check_due_date_range (today : Int) (st : ValState) : ValState :=
  match st.invoice.due_date with
  | some d =>
    if ¬ is_reasonable_date today d then
      stWarn st "unreasonable_due_date"
        "Due date seems unreasonable (too far in past/future)" (some "due_date")
    else st
  | none => st

/-- `InvoiceValidator._validate_formats`: the three checks in order. -/
def validate_formats (today : Int) (st : ValState) : ValState :=
  check_due_date_range today (check_invoice_date_range today (check_currency st))

/-- Sum of `item.line_total for item in line_items if item.line_total`
(Python truthiness skips absent and zero totals). -/
def line_items_sum (items : List LineItem) : ℚ :=
  (items.filter (fun it => truthyQ it.line_total)).foldl
    (fun a it => a + it.line_total.getD 0) 0

/-- Business rule 5: due date on or after invoice date, when both present. -/
def check_date_order (st : ValState) : ValState :=
  match st.invoice.invoice_date, st.invoice.due_date with
  | some i, some d =>
    if d < i then
      stErr st "invalid_date_order"
        "Due date cannot be before invoice date" (some "due_date")
    else st
  | _, _ => st

/-- Business rule 6: net + tax must match gross within tolerance, when all
three amounts are present (`is not None`). -/
def check_totals (tol : ℚ) (st : ValState) : ValState :=
  match st.invoice.net_total, st.invoice.tax_amount, st.invoice.gross_total with
  | some n, some t, some g =>
    if ¬ amounts_match tol (n + t) g then
      stErr st "totals_mismatch"
        "Net total plus tax does not match gross total" (some "gross_total")
    else st
  | _, _, _ => st

/-- Business rule 7: sum of line item totals should match net total, when
line items exist, net is present and the sum is positive (warning). -/
def check_line_items_sum (tol : ℚ) (st : ValState) : ValState :=
  match st.invoice.net_total with
  | some n =>
    if ¬ st.invoice.line_items.isEmpty then
      let s := line_items_sum st.invoice.line_items
      if 0 < s ∧ ¬ amounts_match tol s n then
        stWarn st "line_items_sum_mismatch"
          "Sum of line items does not match net total" (some "line_items")
      else st
    else st
  | none => st

/-- Business rule 8a: net total non-negative. -/
def check_negative_net (st : ValState) : ValState :=
  match st.invoice.net_total with
  | some n =>
    if n < 0 then
      stErr st "negative_amount" "Net total cannot be negative" (some "net_total")
    else st
  | none => st

/-- Business rule 8b: tax amount non-negative. -/
def check_negative_tax (st : ValState) : ValState :=
  match st.invoice.tax_amount with
  | some t =>
    if t < 0 then
      stErr st "negative_amount" "Tax amount cannot be negative" (some "tax_amount")
    else st
  | none => st

/-- Business rule 8c: gross total non-negative. -/
def check_negative_gross (st : ValState) : ValState :=
  match st.invoice.gross_total with
  | some g =>
    if g < 0 then
      stErr st "negative_amount" "Gross total cannot be negative"
        (some "gross_total")
    else st
  | none => st

/-- `InvoiceValidator._validate_business_rules`: the six checks in order. -/
def validate_business_rules (tol : ℚ) (st : ValState) : ValState :=
  check_negative_gross (check_negative_tax (check_negative_net
    (check_line_items_sum tol (check_totals tol (check_date_order st)))))

/-- `InvoiceValidator._validate_anomalies` (duplicate detection). -/
def validate_anomalies (st : ValState) : ValState :=
  match st.invoice.invoice_number, st.invoice.seller_name with
  | some n, some s =>
    if n ≠ "" ∧ s ≠ "" then
      let key := dup_key n s st.invoice.invoice_date
      if key ∈ st.seen then
        stErr st "duplicate_invoice"
          "Duplicate invoice detected" (some "invoice_number")
      else { st with seen := st.seen ++ [key] }
    else st
  | _, _ => st

/-- The body of `InvoiceValidator.validate_invoice` after the fresh result
is created: the four rule groups, in source order, over the explicit state. -/
def validate_invoice_state (today : Int) (tol : ℚ) (st : ValState) : ValState :=
  validate_anomalies (validate_business_rules tol
    (validate_formats today (validate_completeness st)))

/-- `InvoiceValidator.validate_invoice`: build the fresh result and run the
rule groups; returns the result together with the updated seen-set. -/
def validate_invoice (today : Int) (tol : ℚ) (inv : Invoice)
    (seen : List (String × String × String)) :
    ValidationResult × List (String × String × String) :=
  let invoice_id := orElseStr inv.invoice_number (orElseStr inv.source_file "UNKNOWN")
  let st := validate_invoice_state today tol
    ⟨inv, ⟨invoice_id, true, [], []⟩, seen⟩
  (st.result, st.seen)

/-- `error_counts[key] = error_counts.get(key, 0) + 1` on an
insertion-ordered dict. -/
def dict_incr : List (String × ℕ) → String → List (String × ℕ)
  | [], k => [(k, 1)]
  | (k', v) :: rest, k =>
    if k' = k then (k', v + 1) :: rest else (k', v) :: dict_incr rest k

/-- The frequency key: `f"{rule}: {field}" if field else rule`
(an empty-string field is falsy and yields the bare rule). -/
def err_key (e : VError) : String :=
  match e.field with
  | some f => if f = "" then e.rule else e.rule ++ ": " ++ f
  | none => e.rule

/-- `InvoiceValidator._create_summary`. -/
def create_summary (results : List ValidationResult) : ValidationSummary :=
  let total := results.length
  let valid := (results.filter (fun r => r.is_valid)).length
  { total_invoices := total
    valid_invoices := valid
    invalid_invoices := total - valid
    invoices_with_warnings := (results.filter (fun r => ¬ r.warnings.isEmpty)).length
    error_counts := results.foldl
      (fun m r => r.errors.foldl (fun m e => dict_incr m (err_key e)) m) []
    warning_counts := results.foldl
      (fun m r => r.warnings.foldl (fun m e => dict_incr m (err_key e)) m) [] }

/-- The loop of `InvoiceValidator.validate_batch`, threading the seen-set. -/
def validate_batch_results (today : Int) (tol : ℚ) :
    List Invoice → List (String × String × String) → List ValidationResult
  | [], _ => []
  | inv :: rest, seen =>
    let p := validate_invoice today tol inv seen
    p.1 :: validate_batch_results today tol rest p.2

/-- `InvoiceValidator.validate_batch`: the seen-set is cleared at the start
of every call, then each invoice is validated in order and a summary built. -/
def validate_batch (today : Int) (tol : ℚ) (invoices : List Invoice) :
    ValidationReport :=
  let results := validate_batch_results today tol invoices []
  { summary := create_summary results, results := results }

/-! ## Extractor: date normalization (extractor.py `_parse_date`)

`_parse_date` tries six `strptime` layouts in order.  `strptime` compiles a
layout into a regular expression that must match the whole token:
`%d` is one digit `1-9` or two digits `01`-`31`, `%m` is one digit `1-9` or
two digits `01`-`12`, and `%Y` is exactly four digits; the separators are
literal characters.  `datetime` construction then rejects a day that does
not exist in the given month/year and years outside `1..9999`.  All of this
is modelled field by field below; a layout is a separator plus a component
order, and a token parses against a layout iff splitting it at the separator
yields exactly three fields that match the components and form a real date.
-/

/-- A canonical calendar date (the source returns `date(...).isoformat()`,
the ISO string of exactly this triple). -/
structure CalDate where
  year : ℕ
  month : ℕ
  day : ℕ
deriving Repr, DecidableEq

/-- Component order of a date layout. -/
inductive DOrder
  | DMY
  | MDY
  | YMD
deriving Repr, DecidableEq

/-- One `strptime` layout: a separator character and a component order. -/
structure DateFmt where
  sep : Char
  ord : DOrder
deriving Repr, DecidableEq

/-- The layout list of `_parse_date`, in source order:
`%d.%m.%Y`, `%m.%d.%Y`, `%Y-%m-%d`, `%d-%m-%Y`, `%d/%m/%Y`, `%m/%d/%Y`. -/
def date_formats : List DateFmt :=
  [⟨'.', .DMY⟩, ⟨'.', .MDY⟩, ⟨'-', .YMD⟩, ⟨'-', .DMY⟩, ⟨'/', .DMY⟩, ⟨'/', .MDY⟩]

/-- The `%d` field of `strptime`: one digit `1`-`9`, or two digits `01`-`31`. -/
def dayField (l : List Char) : Option ℕ :=
  if l.all Char.isDigit ∧
      ((l.length = 1 ∧ 1 ≤ digitsToNat l) ∨
       (l.length = 2 ∧ 1 ≤ digitsToNat l ∧ digitsToNat l ≤ 31)) then
    some (digitsToNat l)
  else none

/-- The `%m` field of `strptime`: one digit `1`-`9`, or two digits `01`-`12`. -/
def monthField (l : List Char) : Option ℕ :=
  if l.all Char.isDigit ∧
      ((l.length = 1 ∧ 1 ≤ digitsToNat l) ∨
       (l.length = 2 ∧ 1 ≤ digitsToNat l ∧ digitsToNat l ≤ 12)) then
    some (digitsToNat l)
  else none

/-- The `%Y` field of `strptime`: exactly four digits. -/
def yearField (l : List Char) : Option ℕ :=
  if l.all Char.isDigit ∧ l.length = 4 then some (digitsToNat l) else none

/-- The Gregorian leap-year rule used by `datetime`. -/
def isLeap (y : ℕ) : Bool :=
  y % 4 = 0 ∧ (y % 100 ≠ 0 ∨ y % 400 = 0)

/-- Days in a month, as validated by the `datetime` constructor. -/
def days_in_month (y m : ℕ) : ℕ :=
  if m = 2 then (if isLeap y then 29 else 28)
  else if m = 4 ∨ m = 6 ∨ m = 9 ∨ m = 11 then 30
  else 31

/-- The `datetime` constructor check: year in `1..9999`, month in `1..12`,
day in `1..days_in_month`. -/
def valid_date (y m d : ℕ) : Bool :=
  1 ≤ y ∧ y ≤ 9999 ∧ 1 ≤ m ∧ m ≤ 12 ∧ 1 ≤ d ∧ d ≤ days_in_month y m

/-- `datetime.strptime(date_str, fmt).date()` for one of the six layouts. -/
def try_format (f : DateFmt) (s : String) : Option CalDate :=
  match splitSep f.sep s.data with
  | [a, b, c] =>
    let comps : Option (ℕ × ℕ × ℕ) :=
      match f.ord with
      | .DMY => do
        let d ← dayField a
        let m ← monthField b
        let y ← yearField c
        pure (y, m, d)
      | .MDY => do
        let m ← monthField a
        let d ← dayField b
        let y ← yearField c
        pure (y, m, d)
      | .YMD => do
        let y ← yearField a
        let m ← monthField b
        let d ← dayField c
        pure (y, m, d)
    match comps with
    | some (y, m, d) => if valid_date y m d then some ⟨y, m, d⟩ else none
    | none => none
  | _ => none

/-- `InvoiceExtractor._parse_date`: first layout that parses wins;
`none` models the `return None` fall-through (never an exception). -/
def parse_date (date_str : String) : Option CalDate :=
  date_formats.findSome? (fun f => try_format f date_str)

/-! ## Extractor: currency (extractor.py `_extract_currency`) -/

/-- `self.currency_symbols`, in dict insertion order. -/
def currency_symbols : List (Char × String) :=
  [('$', "USD"), ('€', "EUR"), ('£', "GBP"), ('₹', "INR")]

/-- The `Currency` enum members, in declaration order. -/
def currency_enum : List String := ["EUR", "USD", "INR", "GBP"]

/-- A regex word character (ASCII model of the `\w` class). -/
def wordChar (c : Char) : Bool := c.isAlpha || c.isDigit || c == '_'

/-- Case-insensitive prefix test (the `re.IGNORECASE` match of the code). -/
def startsWithCI : List Char → List Char → Bool
  | [], _ => true
  | _ :: _, [] => false
  | p :: ps, c :: cs => p.toLower == c.toLower && startsWithCI ps cs

/-- A word boundary holds before the match: start of text or non-word char. -/
def boundaryBefore : Option Char → Bool
  | none => true
  | some c => !wordChar c

/-- A word boundary holds after the match: end of text or non-word char. -/
def boundaryAfter : List Char → Bool
  | [] => true
  | c :: _ => !wordChar c

/-- Scan for a whole-word, case-insensitive occurrence of `code`
(`re.search(r"\b" + code + r"\b", text, re.IGNORECASE)`), tracking the
previous character for the left boundary. -/
def wholeWordAux (code : List Char) (prev : Option Char) : List Char → Bool
  | [] => false
  | c :: cs =>
    (boundaryBefore prev && startsWithCI code (c :: cs) &&
      boundaryAfter ((c :: cs).drop code.length)) ||
    wholeWordAux code (some c) cs

/-- Whole-word case-insensitive search of a currency code in the text. -/
def whole_word (code text : String) : Bool :=
  wholeWordAux code.data none text.data

/-- `InvoiceExtractor._extract_currency`: symbols first (dict order, substring
test — the symbols are single characters), then enum codes as whole words,
then the literal fallback `"USD"`.  The Python annotation is `Optional[str]`
but every path returns a string. -/
def extract_currency (text : String) : String :=
  match currency_symbols.find? (fun p => text.data.contains p.1) with
  | some p => p.2
  | none =>
    match currency_enum.find? (fun c => whole_word c text) with
    | some c => c
    | none => "USD"

/-! ## Extractor: amounts assembly (extractor.py `_extract_amounts`)

The tail of `_extract_amounts` (after the three label searches) is embedded
with the search outcomes as parameters:

* `grossFind` — the result of `find_value(["TOTAL DUE", ...])`;
* `grossFb` — the bare-`TOTAL` fallback: `none` when the regex did not match
  (the key stays unset), `some v` when it matched and `clean_number`
  returned `v` (`v = none` models a failed `clean_number`, which stores
  `None` in the dict — indistinguishable downstream from an unset key);
* `subFind` / `taxFind` — the results of the subtotal and tax searches.
-/

/-- The three headline amounts of the assembled data dict. -/
structure AmountsData where
  gross_total : Option ℚ
  net_total : Option ℚ
  tax_amount : Option ℚ
deriving Repr, DecidableEq

/-- The gross total stored by the `if gross: ... else: ...` block. -/
def resolved_gross (grossFind : Option ℚ) (grossFb : Option (Option ℚ)) :
    Option ℚ :=
  if truthyQ grossFind then grossFind
  else match grossFb with
    | some v => v
    | none => none

/-- Lines 322-349 of `_extract_amounts`: store each truthy search result,
then the derivation heuristic — if gross and tax are stored truthy and net
is not, set `net = gross - tax`. -/
def extract_amounts_assemble (grossFind : Option ℚ) (grossFb : Option (Option ℚ))
    (subFind taxFind : Option ℚ) : AmountsData :=
  let gross := resolved_gross grossFind grossFb
  let net := if truthyQ subFind then subFind else none
  let tax := if truthyQ taxFind then taxFind else none
  if truthyQ gross && truthyQ tax && !truthyQ net then
    { gross_total := gross, net_total := some (gross.getD 0 - tax.getD 0),
      tax_amount := tax }
  else
    { gross_total := gross, net_total := net, tax_amount := tax }

/-! ## Extractor: line items, table strategy (extractor.py `_extract_line_items`)

The numeric cell parsers — Python `float(...)` for quantities and
`Decimal(...)` for prices/totals — are passed as parameters `qp`, `pp`, `tp`
(`String → Option ℚ`): a `none` result models the raised exception that the
bare `except: pass` swallows.  The concrete preprocessing that the code does
before calling them (`.replace(',', '')` for quantities, the
`re.sub(r"[^0-9\.]", "", ...)` strip for prices and totals) is embedded
explicitly.  An `IndexError` on the unguarded `clean_row[desc_col]` access
is the one uncaught exception inside the row loop; it is modelled as the
`Except.error` outcome, which aborts the whole strategy with the items
collected so far (the enclosing `try` of `_extract_line_items`).
-/

/-- The column-keyword sets, in source order. -/
def desc_keywords : List String := ["description", "item", "product", "details"]

/-- Keywords for the quantity column. -/
def qty_keywords : List String := ["qty", "quantity", "count"]

/-- Keywords for the unit-price column. -/
def price_keywords : List String := ["unit price", "price", "rate", "cost", "unit"]

/-- Keywords for the line-total column. -/
def total_keywords : List String := ["total", "amount", "extension"]

/-- `InvoiceExtractor._find_column_index`: first header cell (in order) that
is truthy and whose lowercased, newline-collapsed text equals or contains
one of the keywords. -/
def find_column_index_from (i : ℕ) : List (Option String) → List String → Option ℕ
  | [], _ => none
  | cell :: rest, keywords =>
    match cell with
    | some c =>
      if c ≠ "" ∧
          (keywords.any (fun kw =>
            let cl := pyReplaceChar '\n' [' '] (pyLower c)
            kw == cl || pyContains cl kw)) then
        some i
      else find_column_index_from (i + 1) rest keywords
    | none => find_column_index_from (i + 1) rest keywords

/-- `_find_column_index` starting at index `0`. -/
def find_column_index (header : List (Option String)) (keywords : List String) :
    Option ℕ :=
  find_column_index_from 0 header keywords

/-- `str(c).strip() if c else ""` for one cell. -/
def clean_cell : Option String → String
  | none => ""
  | some s => if s = "" then "" else pyStrip s

/-- `re.sub(r"[^0-9\.]", "", s)`: keep only digits and dots. -/
def strip_non_numeric (s : String) : String :=
  ⟨s.data.filter (fun c => c.isDigit || c == '.')⟩

/-- A row's quantity sub-field: only when a quantity column was found and
the (comma-stripped) cell parses; everything else is absent. -/
def row_qty (qp : String → Option ℚ) (clean_row : List String)
    (qty_col : Option ℕ) : Option ℚ :=
  match qty_col with
  | some qi =>
    match clean_row.get? qi with
    | some cell => qp (pyReplaceChar ',' [] cell)
    | none => none
  | none => none

/-- A row's unit-price sub-field (after the non-numeric strip). -/
def row_price (pp : String → Option ℚ) (clean_row : List String)
    (price_col : Option ℕ) : Option ℚ :=
  match price_col with
  | some pi =>
    match clean_row.get? pi with
    | some cell => pp (strip_non_numeric cell)
    | none => none
  | none => none

/-- A row's line-total sub-field (after the non-numeric strip). -/
def row_total (tp : String → Option ℚ) (clean_row : List String)
    (total_col : Option ℕ) : Option ℚ :=
  match total_col with
  | some ti =>
    match clean_row.get? ti with
    | some cell => tp (strip_non_numeric cell)
    | none => none
  | none => none

/-- The body of the row loop of the table strategy.
`Except.error ()` is the uncaught `IndexError` on the description access;
`Except.ok none` is a skipped or non-emitted row; `Except.ok (some item)`
is an emitted line item. -/
def process_row (qp pp tp : String → Option ℚ) (desc_col : ℕ)
    (qty_col price_col total_col : Option ℕ) (row : List (Option String)) :
    Except Unit (Option LineItem) :=
  if row.isEmpty then Except.ok none
  else
    let clean_row := row.map clean_cell
    if pyContains (pyLower (clean_row.headD "")) "total" then Except.ok none
    else
      match clean_row.get? desc_col with
      | none => Except.error ()
      | some d =>
        let description := pyReplaceChar '\n' [' '] d
        let qty := row_qty qp clean_row qty_col
        let price := row_price pp clean_row price_col
        let total := row_total tp clean_row total_col
        if description ≠ "" ∧ (truthyQ total ∨ truthyQ qty) then
          Except.ok (some ⟨some description, qty, price, total, none⟩)
        else Except.ok none

/-- The row loop over a table's data rows; an `IndexError` aborts with the
items collected so far (`true` marks the abort). -/
def process_rows (qp pp tp : String → Option ℚ) (desc_col : ℕ)
    (qty_col price_col total_col : Option ℕ) :
    List (List (Option String)) → List LineItem × Bool
  | [] => ([], false)
  | row :: rest =>
    match process_row qp pp tp desc_col qty_col price_col total_col row with
    | Except.error _ => ([], true)
    | Except.ok none => process_rows qp pp tp desc_col qty_col price_col total_col rest
    | Except.ok (some item) =>
      let p := process_rows qp pp tp desc_col qty_col price_col total_col rest
      (item :: p.1, p.2)

/-- One table of the table strategy: needs at least two rows and a resolved
description column, then processes every data row. -/
def process_table (qp pp tp : String → Option ℚ)
    (table : List (List (Option String))) : List LineItem × Bool :=
  if table.length < 2 then ([], false)
  else
    let header := table.headD []
    match find_column_index header desc_keywords with
    | none => ([], false)
    | some desc_col =>
      process_rows qp pp tp desc_col
        (find_column_index header qty_keywords)
        (find_column_index header price_keywords)
        (find_column_index header total_keywords)
        (table.tail)

/-- The table strategy over all detected tables, propagating an abort. -/
def extract_line_items_tables (qp pp tp : String → Option ℚ) :
    List (List (List (Option String))) → List LineItem × Bool
  | [] => ([], false)
  | table :: rest =>
    let p := process_table qp pp tp table
    if p.2 then (p.1, true)
    else
      let q := extract_line_items_tables qp pp tp rest
      (p.1 ++ q.1, q.2)

/-- A model of Python `float(s)` / `Decimal(s)` on plain decimal tokens
(optional integer part, optional single dot, optional fraction part, at
least one digit); used to instantiate the parser parameters at concrete
inputs. -/
def dec_str_q : String → Option ℚ := fun s =>
  match splitSep '.' s.data with
  | [ip] =>
    if ip ≠ [] ∧ ip.all Char.isDigit then some (digitsToNat ip) else none
  | [ip, fp] =>
    if (ip ++ fp) ≠ [] ∧ ip.all Char.isDigit ∧ fp.all Char.isDigit then
      some ((digitsToNat ip : ℚ) + (digitsToNat fp : ℚ) / (10 : ℚ) ^ fp.length)
    else none
  | _ => none

/-- The rules any pre-anomaly check can produce. -/
def pre_rules : List String :=
  ["invoice_number_required", "invoice_date_required", "seller_name_required",
   "buyer_name_required", "gross_total_required", "invalid_currency",
   "invalid_date_order", "totals_mismatch", "negative_amount"]

/-- The duplicate-error record appended by the anomaly check. -/
def dupError : VError :=
  ⟨"duplicate_invoice", some "invoice_number", "Duplicate invoice detected", "error"⟩

/-- Does a result carry a `duplicate_invoice` error? -/
def has_dup_error (r : ValidationResult) : Bool :=
  r.errors.any (fun e => e.rule == "duplicate_invoice")

/-- The tolerance-equality rule exactly as the specification words it. -/
def tolerance_equal_spec (tol a b : ℚ) : Prop :=
  (a = 0 ∧ b = 0) ∨
  (((a = 0 ∧ b ≠ 0) ∨ (a ≠ 0 ∧ b = 0)) ∧ |a - b| < 1/100) ∨
  (a ≠ 0 ∧ b ≠ 0 ∧ |a - b| / ((|a| + |b|) / 2) ≤ tol)

/-- A complete, error-free test record. -/
def invA : Invoice :=
  ⟨some "INV-1", none, some "S1", none, none, some "B1", none, none,
   some 0, none, none, none, none, none, some 100, none, [], none⟩

/-- A second complete, error-free test record with a distinct key. -/
def invB : Invoice :=
  ⟨some "INV-2", none, some "S2", none, none, some "B2", none, none,
   some 0, none, none, none, none, none, some 100, none, [], none⟩

/-- A test record lacking only the invoice date. -/
def invC : Invoice :=
  ⟨some "INV-3", none, some "S3", none, none, some "B3", none, none,
   none, none, none, none, none, none, some 100, none, [], none⟩

/-- A fallback result value for head extraction. -/
def emptyResult : ValidationResult := ⟨"", false, [], []⟩

/-- A record with the same duplicate key as `invA` (differing elsewhere). -/
def invA2 : Invoice :=
  ⟨some "inv-1 ", none, some " s1", none, none, some "B9", none, none,
   some 0, none, none, none, none, none, some 50, none, [], none⟩

/-- The error appended by the invoice-date completeness rule. -/
def dateReqError : VError :=
  ⟨"invoice_date_required", some "invoice_date", "Invoice date is required", "error"⟩

/-! ## Helper lemmas: the shape of one validation check -/

/-- A validation check that only appends to the result: it preserves the
invoice, the seen-set and the identifier, appends errors (whose rules come
from `rules`) and warnings, and clears the validity flag exactly when it
appends an error. -/
def RuleStep (f : ValState → ValState) (rules : List String) : Prop :=
  ∀ st, (f st).invoice = st.invoice ∧ (f st).seen = st.seen ∧
    (f st).result.invoice_id = st.result.invoice_id ∧
    ∃ es ws, (f st).result.errors = st.result.errors ++ es ∧
      (f st).result.warnings = st.result.warnings ++ ws ∧
      (f st).result.is_valid = (st.result.is_valid && es.isEmpty) ∧
      ∀ e ∈ es, e.rule ∈ rules

theorem RuleStep.comp {f g : ValState → ValState} {rules : List String}
    (hf : RuleStep f rules) (hg : RuleStep g rules) :
    RuleStep (fun st => g (f st)) rules := by
  intro st
  obtain ⟨hi, hs, hid, es, ws, he, hw, hv, hr⟩ := hf st
  obtain ⟨hi', hs', hid', es', ws', he', hw', hv', hr'⟩ := hg (f st)
  refine ⟨hi'.trans hi, hs'.trans hs, hid'.trans hid, es ++ es', ws ++ ws',
    ?_, ?_, ?_, ?_⟩
  · rw [he', he, List.append_assoc]
  · rw [hw', hw, List.append_assoc]
  · rw [hv', hv]
    cases st.result.is_valid <;> cases es <;> simp
  · intro e he
    rcases List.mem_append.mp he with h | h
    · exact hr e h
    · exact hr' e h

theorem RuleStep.mono {f : ValState → ValState} {rules : List String}
    (rules' : List String) (hf : RuleStep f rules)
    (hsub : ∀ r ∈ rules, r ∈ rules') :
    RuleStep f rules' := by
  intro st
  obtain ⟨hi, hs, hid, es, ws, he, hw, hv, hr⟩ := hf st
  exact ⟨hi, hs, hid, es, ws, he, hw, hv, fun e h => hsub _ (hr e h)⟩

/-- Every check of the first three rule groups either leaves the state
alone, appends one error (with a rule from `rules`), or appends one
warning. -/
theorem RuleStep.of_branches {f : ValState → ValState} {rules : List String}
    (h : ∀ st, f st = st ∨
      (∃ r m fld, r ∈ rules ∧ f st = stErr st r m fld) ∨
      (∃ r m fld, f st = stWarn st r m fld)) :
    RuleStep f rules := by
  intro st
  rcases h st with h | ⟨r, m, fld, hr, h⟩ | ⟨r, m, fld, h⟩
  · rw [h]
    exact ⟨rfl, rfl, rfl, [], [], by simp, by simp, by simp, by simp⟩
  · rw [h]
    refine ⟨rfl, rfl, rfl, [⟨r, fld, m, "error"⟩], [], ?_, ?_, ?_, ?_⟩
    · simp [stErr, add_error]
    · simp [stErr, add_error]
    · simp [stErr, add_error]
    · simpa using hr
  · rw [h]
    refine ⟨rfl, rfl, rfl, [], [⟨r, fld, m, "warning"⟩], ?_, ?_, ?_, ?_⟩
    · simp [stWarn, add_warning]
    · simp [stWarn, add_warning]
    · simp [stWarn, add_warning]
    · simp

theorem ruleStep_check_invoice_number :
    RuleStep check_invoice_number ["invoice_number_required"] := by
  apply RuleStep.of_branches
  intro st
  unfold check_invoice_number
  split
  · exact Or.inr (Or.inl ⟨_, _, _, by simp, rfl⟩)
  · exact Or.inl rfl

theorem ruleStep_check_invoice_date :
    RuleStep check_invoice_date ["invoice_date_required"] := by
  apply RuleStep.of_branches
  intro st
  unfold check_invoice_date
  split
  · exact Or.inr (Or.inl ⟨_, _, _, by simp, rfl⟩)
  · exact Or.inl rfl

theorem ruleStep_check_seller_name :
    RuleStep check_seller_name ["seller_name_required"] := by
  apply RuleStep.of_branches
  intro st
  unfold check_seller_name
  split
  · exact Or.inr (Or.inl ⟨_, _, _, by simp, rfl⟩)
  · exact Or.inl rfl

theorem ruleStep_check_buyer_name :
    RuleStep check_buyer_name ["buyer_name_required"] := by
  apply RuleStep.of_branches
  intro st
  unfold check_buyer_name
  split
  · exact Or.inr (Or.inl ⟨_, _, _, by simp, rfl⟩)
  · exact Or.inl rfl

theorem ruleStep_check_gross_total :
    RuleStep check_gross_total ["gross_total_required"] := by
  apply RuleStep.of_branches
  intro st
  unfold check_gross_total
  split
  · exact Or.inr (Or.inl ⟨_, _, _, by simp, rfl⟩)
  · exact Or.inl rfl

theorem ruleStep_check_currency :
    RuleStep check_currency ["invalid_currency"] := by
  apply RuleStep.of_branches
  intro st
  unfold check_currency
  split
  · exact Or.inr (Or.inl ⟨_, _, _, by simp, rfl⟩)
  · exact Or.inl rfl

theorem ruleStep_check_invoice_date_range (today : Int) :
    RuleStep (check_invoice_date_range today) [] := by
  apply RuleStep.of_branches
  intro st
  unfold check_invoice_date_range
  split
  · split
    · exact Or.inr (Or.inr ⟨_, _, _, rfl⟩)
    · exact Or.inl rfl
  · exact Or.inl rfl

theorem ruleStep_check_due_date_range (today : Int) :
    RuleStep (check_due_date_range today) [] := by
  apply RuleStep.of_branches
  intro st
  unfold check_due_date_range
  split
  · split
    · exact Or.inr (Or.inr ⟨_, _, _, rfl⟩)
    · exact Or.inl rfl
  · exact Or.inl rfl

theorem ruleStep_check_date_order :
    RuleStep check_date_order ["invalid_date_order"] := by
  apply RuleStep.of_branches
  intro st
  unfold check_date_order
  split
  · split
    · exact Or.inr (Or.inl ⟨_, _, _, by simp, rfl⟩)
    · exact Or.inl rfl
  · exact Or.inl rfl

theorem ruleStep_check_totals (tol : ℚ) :
    RuleStep (check_totals tol) ["totals_mismatch"] := by
  apply RuleStep.of_branches
  intro st
  unfold check_totals
  split
  · split
    · exact Or.inr (Or.inl ⟨_, _, _, by simp, rfl⟩)
    · exact Or.inl rfl
  · exact Or.inl rfl

theorem ruleStep_check_line_items_sum (tol : ℚ) :
    RuleStep (check_line_items_sum tol) [] := by
  apply RuleStep.of_branches
  intro st
  simp only [check_line_items_sum]
  split
  · split
    · split
      · exact Or.inr (Or.inr ⟨_, _, _, rfl⟩)
      · exact Or.inl rfl
    · exact Or.inl rfl
  · exact Or.inl rfl

theorem ruleStep_check_negative_net :
    RuleStep check_negative_net ["negative_amount"] := by
  apply RuleStep.of_branches
  intro st
  unfold check_negative_net
  split
  · split
    · exact Or.inr (Or.inl ⟨_, _, _, by simp, rfl⟩)
    · exact Or.inl rfl
  · exact Or.inl rfl

theorem ruleStep_check_negative_tax :
    RuleStep check_negative_tax ["negative_amount"] := by
  apply RuleStep.of_branches
  intro st
  unfold check_negative_tax
  split
  · split
    · exact Or.inr (Or.inl ⟨_, _, _, by simp, rfl⟩)
    · exact Or.inl rfl
  · exact Or.inl rfl

theorem ruleStep_check_negative_gross :
    RuleStep check_negative_gross ["negative_amount"] := by
  apply RuleStep.of_branches
  intro st
  unfold check_negative_gross
  split
  · split
    · exact Or.inr (Or.inl ⟨_, _, _, by simp, rfl⟩)
    · exact Or.inl rfl
  · exact Or.inl rfl

/-- The first three rule groups together form one result-append step whose
error rules all come from `pre_rules`. -/
theorem ruleStep_pre (today : Int) (tol : ℚ) :
    RuleStep (fun st => validate_business_rules tol
      (validate_formats today (validate_completeness st))) pre_rules := by
  have h := (ruleStep_check_invoice_number.mono pre_rules (by simp [pre_rules])).comp
    (ruleStep_check_invoice_date.mono pre_rules (by simp [pre_rules]))
  have h := h.comp (ruleStep_check_seller_name.mono pre_rules (by simp [pre_rules]))
  have h := h.comp (ruleStep_check_buyer_name.mono pre_rules (by simp [pre_rules]))
  have h := h.comp (ruleStep_check_gross_total.mono pre_rules (by simp [pre_rules]))
  have h := h.comp (ruleStep_check_currency.mono pre_rules (by simp [pre_rules]))
  have h := h.comp ((ruleStep_check_invoice_date_range today).mono pre_rules (by simp))
  have h := h.comp ((ruleStep_check_due_date_range today).mono pre_rules (by simp))
  have h := h.comp (ruleStep_check_date_order.mono pre_rules (by simp [pre_rules]))
  have h := h.comp ((ruleStep_check_totals tol).mono pre_rules (by simp [pre_rules]))
  have h := h.comp ((ruleStep_check_line_items_sum tol).mono pre_rules (by simp))
  have h := h.comp (ruleStep_check_negative_net.mono pre_rules (by simp [pre_rules]))
  have h := h.comp (ruleStep_check_negative_tax.mono pre_rules (by simp [pre_rules]))
  have h := h.comp (ruleStep_check_negative_gross.mono pre_rules (by simp [pre_rules]))
  exact h

/-- Shape of the anomaly check: invoice and identifier preserved, warnings
untouched, and either nothing or exactly the duplicate error appended. -/
theorem anomalies_shape (st : ValState) :
    (validate_anomalies st).invoice = st.invoice ∧
    (validate_anomalies st).result.invoice_id = st.result.invoice_id ∧
    (validate_anomalies st).result.warnings = st.result.warnings ∧
    ∃ es, (validate_anomalies st).result.errors = st.result.errors ++ es ∧
      (validate_anomalies st).result.is_valid = (st.result.is_valid && es.isEmpty) ∧
      ∀ e ∈ es, e = dupError := by
  simp only [validate_anomalies]
  repeat' split
  · exact ⟨rfl, rfl, rfl, [dupError],
      by simp [stErr, add_error, dupError], by simp [stErr, add_error], by simp⟩
  all_goals exact ⟨rfl, rfl, rfl, [], by simp, by simp, by simp⟩

/-- The anomaly check when number and seller are truthy and the key is
already seen: exactly the duplicate error is appended, seen unchanged. -/
theorem validate_anomalies_dup (st : ValState) (n s : String)
    (hn : st.invoice.invoice_number = some n) (hs : st.invoice.seller_name = some s)
    (hn' : n ≠ "") (hs' : s ≠ "")
    (hmem : dup_key n s st.invoice.invoice_date ∈ st.seen) :
    validate_anomalies st =
      stErr st "duplicate_invoice" "Duplicate invoice detected"
        (some "invoice_number") := by
  unfold validate_anomalies
  rw [hn, hs]
  simp only [if_pos (And.intro hn' hs'), if_pos hmem]

/-- The anomaly check when number and seller are truthy and the key is new:
the result is untouched and the key is appended to the seen-set. -/
theorem validate_anomalies_fresh (st : ValState) (n s : String)
    (hn : st.invoice.invoice_number = some n) (hs : st.invoice.seller_name = some s)
    (hn' : n ≠ "") (hs' : s ≠ "")
    (hmem : dup_key n s st.invoice.invoice_date ∉ st.seen) :
    validate_anomalies st =
      { st with seen := st.seen ++ [dup_key n s st.invoice.invoice_date] } := by
  unfold validate_anomalies
  rw [hn, hs]
  simp only [if_pos (And.intro hn' hs'), if_neg hmem]

/-- A validation result's flag agrees with emptiness of its error list. -/
theorem validate_invoice_valid_iff (today : Int) (tol : ℚ) (inv : Invoice)
    (seen : List (String × String × String)) :
    (validate_invoice today tol inv seen).1.is_valid =
      (validate_invoice today tol inv seen).1.errors.isEmpty := by
  simp only [validate_invoice, validate_invoice_state]
  obtain ⟨-, -, -, es, ws, he, -, hv, -⟩ :=
    ruleStep_pre today tol ⟨inv,
      ⟨orElseStr inv.invoice_number (orElseStr inv.source_file "UNKNOWN"),
        true, [], []⟩, seen⟩
  obtain ⟨-, -, -, es', he', hv', -⟩ := anomalies_shape
    (validate_business_rules tol (validate_formats today (validate_completeness
      ⟨inv, ⟨orElseStr inv.invoice_number (orElseStr inv.source_file "UNKNOWN"),
        true, [], []⟩, seen⟩)))
  rw [hv', hv, he', he]
  simp only [List.nil_append] at *
  cases es <;> cases es' <;> simp

/-- Unfolding one step of the batch loop. -/
theorem validate_batch_results_cons (today : Int) (tol : ℚ) (inv : Invoice)
    (rest : List Invoice) (seen : List (String × String × String)) :
    validate_batch_results today tol (inv :: rest) seen =
      (validate_invoice today tol inv seen).1 ::
        validate_batch_results today tol rest (validate_invoice today tol inv seen).2 :=
  rfl

/-- Every result in a batch has its flag agreeing with error emptiness. -/
theorem mem_batch_valid_iff (today : Int) (tol : ℚ) :
    ∀ (invs : List Invoice) (seen : List (String × String × String))
      (r : ValidationResult), r ∈ validate_batch_results today tol invs seen →
      r.is_valid = r.errors.isEmpty := by
  intro invs
  induction invs with
  | nil => intro seen r h; simp [validate_batch_results] at h
  | cons inv rest ih =>
    intro seen r h
    rw [validate_batch_results_cons] at h
    rcases List.mem_cons.mp h with h | h
    · rw [h]; exact validate_invoice_valid_iff today tol inv seen
    · exact ih _ r h

/-- The nested loops of `_create_summary` are a fold over the flattened
error lists. -/
theorem foldl_foldl_flatMap (results : List ValidationResult)
    (step : List (String × ℕ) → VError → List (String × ℕ)) :
    ∀ init : List (String × ℕ),
      results.foldl (fun m r => r.errors.foldl step m) init =
        (results.flatMap (fun r => r.errors)).foldl step init := by
  induction results with
  | nil => intro init; rfl
  | cons r rest ih =>
    intro init
    rw [List.flatMap_cons, List.foldl_append, List.foldl_cons]
    exact ih _

/-- If filtering out the empty lists leaves exactly `[[x]]`, the
concatenation is `[x]`. -/
theorem flatten_of_filter_singleton {α : Type} (x : α) :
    ∀ L : List (List α), L.filter (fun l => !l.isEmpty) = [[x]] →
      L.flatMap id = [x] := by
  intro L
  induction L with
  | nil => intro h; simp at h
  | cons l rest ih =>
    intro h
    cases hl : l with
    | nil =>
      subst hl
      simp only [List.filter_cons, List.isEmpty_nil] at h
      simpa using ih (by simpa using h)
    | cons a t =>
      subst hl
      simp only [List.filter_cons] at h
      simp only [List.isEmpty_cons, Bool.not_false, if_pos] at h
      rw [List.cons_eq_cons] at h
      obtain ⟨h1, h2⟩ := h
      have hrest : rest.flatMap id = [] := by
        have : ∀ l ∈ rest, l = ([] : List α) := by
          intro l hl
          by_contra hne
          have : l ∈ rest.filter (fun l => !l.isEmpty) := by
            rw [List.mem_filter]
            exact ⟨hl, by cases l with
              | nil => exact absurd rfl hne
              | cons b u => simp⟩
          rw [h2] at this
          simp at this
        simp only [List.flatMap_eq_nil_iff]
        intro l hl
        simp [this l hl]
      simp [h1, hrest]

/-- Validating a record whose duplicate key is already seen: the result
carries the duplicate error and the seen-set is unchanged. -/
theorem validate_invoice_dup (today : Int) (tol : ℚ) (inv : Invoice)
    (seen : List (String × String × String)) (n s : String)
    (hn : inv.invoice_number = some n) (hs : inv.seller_name = some s)
    (hn' : n ≠ "") (hs' : s ≠ "")
    (hmem : dup_key n s inv.invoice_date ∈ seen) :
    has_dup_error (validate_invoice today tol inv seen).1 = true ∧
    (validate_invoice today tol inv seen).2 = seen := by
  simp only [validate_invoice, validate_invoice_state]
  set st0 : ValState := ⟨inv,
    ⟨orElseStr inv.invoice_number (orElseStr inv.source_file "UNKNOWN"),
      true, [], []⟩, seen⟩ with hst0
  obtain ⟨hi, hsn, -, es, ws, he, -, -, -⟩ := ruleStep_pre today tol st0
  set st1 : ValState := validate_business_rules tol
    (validate_formats today (validate_completeness st0)) with hst1
  have hinv : st1.invoice = inv := hi
  have hseen : st1.seen = seen := hsn
  rw [validate_anomalies_dup st1 n s (by rw [hinv]; exact hn)
    (by rw [hinv]; exact hs) hn' hs' (by rw [hinv, hseen]; exact hmem)]
  constructor
  · simp [stErr, add_error, has_dup_error]
  · simp [stErr, hseen]

/-- Validating a record whose duplicate key is not yet seen: the result
carries no duplicate error and the key is appended to the seen-set. -/
theorem validate_invoice_fresh (today : Int) (tol : ℚ) (inv : Invoice)
    (seen : List (String × String × String)) (n s : String)
    (hn : inv.invoice_number = some n) (hs : inv.seller_name = some s)
    (hn' : n ≠ "") (hs' : s ≠ "")
    (hmem : dup_key n s inv.invoice_date ∉ seen) :
    has_dup_error (validate_invoice today tol inv seen).1 = false ∧
    (validate_invoice today tol inv seen).2 = seen ++ [dup_key n s inv.invoice_date] := by
  simp only [validate_invoice, validate_invoice_state]
  set st0 : ValState := ⟨inv,
    ⟨orElseStr inv.invoice_number (orElseStr inv.source_file "UNKNOWN"),
      true, [], []⟩, seen⟩ with hst0
  obtain ⟨hi, hsn, -, es, ws, he, -, -, hr⟩ := ruleStep_pre today tol st0
  set st1 : ValState := validate_business_rules tol
    (validate_formats today (validate_completeness st0)) with hst1
  have hinv : st1.invoice = inv := hi
  have hseen : st1.seen = seen := hsn
  rw [validate_anomalies_fresh st1 n s (by rw [hinv]; exact hn)
    (by rw [hinv]; exact hs) hn' hs' (by rw [hinv, hseen]; exact hmem)]
  refine ⟨?_, by simp [hseen, hinv]⟩
  simp only [has_dup_error]
  rw [List.any_eq_false]
  intro e hmem'
  have he' : e ∈ st1.result.errors := hmem'
  rw [he] at he'
  have : e ∈ es := by
    have : st0.result.errors = [] := rfl
    rw [this] at he'
    simpa using he'
  have hrule := hr e this
  have hne : e.rule ≠ "duplicate_invoice" := by
    intro hcontra
    rw [hcontra] at hrule
    simp [pre_rules] at hrule
  simpa using hne

/-- Validating a record lacking a truthy invoice number or seller name:
no duplicate error and the seen-set is unchanged. -/
theorem validate_invoice_no_key (today : Int) (tol : ℚ) (inv : Invoice)
    (seen : List (String × String × String))
    (h : ¬ (truthyStr inv.invoice_number = true ∧ truthyStr inv.seller_name = true)) :
    has_dup_error (validate_invoice today tol inv seen).1 = false ∧
    (validate_invoice today tol inv seen).2 = seen := by
  simp only [validate_invoice, validate_invoice_state]
  set st0 : ValState := ⟨inv,
    ⟨orElseStr inv.invoice_number (orElseStr inv.source_file "UNKNOWN"),
      true, [], []⟩, seen⟩ with hst0
  obtain ⟨hi, hsn, -, es, ws, he, -, -, hr⟩ := ruleStep_pre today tol st0
  set st1 : ValState := validate_business_rules tol
    (validate_formats today (validate_completeness st0)) with hst1
  have hinv : st1.invoice = inv := hi
  have hseen : st1.seen = seen := hsn
  have hskip : validate_anomalies st1 = st1 := by
    unfold validate_anomalies
    rw [hinv]
    cases hnn : inv.invoice_number with
    | none => rfl
    | some n =>
      cases hss : inv.seller_name with
      | none => rfl
      | some s =>
        have : ¬ (n ≠ "" ∧ s ≠ "") := by
          intro ⟨h1, h2⟩
          exact h ⟨by simp [truthyStr, hnn, h1], by simp [truthyStr, hss, h2]⟩
        simp only [if_neg this]
  rw [hskip]
  refine ⟨?_, hseen⟩
  simp only [has_dup_error]
  rw [List.any_eq_false]
  intro e hmem'
  have he' : e ∈ st1.result.errors := hmem'
  rw [he] at he'
  have hes : e ∈ es := by
    have : st0.result.errors = [] := rfl
    rw [this] at he'
    simpa using he'
  have hrule := hr e hes
  have hne : e.rule ≠ "duplicate_invoice" := by
    intro hcontra
    rw [hcontra] at hrule
    simp [pre_rules] at hrule
  simpa using hne

/-- C1: for every pair of amounts and configured relative tolerance, the
tolerance-equality test returns true iff: both amounts are exactly zero; or
exactly one is zero and they differ by strictly less than 0.01; or neither
is zero and the absolute difference over the average of the absolute values
is at most the tolerance (default 0.02). -/
theorem claim_C1 (tol a b : ℚ) :
    amounts_match tol a b = true ↔ tolerance_equal_spec tol a b := by
  unfold amounts_match tolerance_equal_spec
  split_ifs with h1 h2
  · simp only [true_iff]
    exact Or.inl h1
  · simp only [decide_eq_true_eq]
    constructor
    · intro hlt
      refine Or.inr (Or.inl ⟨?_, hlt⟩)
      rcases h2 with ha | hb
      · exact Or.inl ⟨ha, fun hb => h1 ⟨ha, hb⟩⟩
      · exact Or.inr ⟨fun ha => h1 ⟨ha, hb⟩, hb⟩
    · rintro (⟨ha, hb⟩ | ⟨-, hlt⟩ | ⟨ha, hb, -⟩)
      · exact absurd ⟨ha, hb⟩ h1
      · exact hlt
      · rcases h2 with h | h
        · exact absurd h ha
        · exact absurd h hb
  · push_neg at h2
    simp only [decide_eq_true_eq]
    constructor
    · intro hle
      exact Or.inr (Or.inr ⟨h2.1, h2.2, hle⟩)
    · rintro (⟨ha, hb⟩ | ⟨hone, -⟩ | ⟨-, -, hle⟩)
      · exact absurd ha h2.1
      · rcases hone with ⟨ha, -⟩ | ⟨-, hb⟩
        · exact absurd ha h2.1
        · exact absurd hb h2.2
      · exact hle

/-- C8: the tolerance-equality test is symmetric in its two amounts, and
reflexive on any amount `a ≥ 0` whenever the configured tolerance is
non-negative. -/
theorem claim_C8 (tol a b : ℚ) :
    amounts_match tol a b = amounts_match tol b a ∧
    (0 ≤ tol → 0 ≤ a → amounts_match tol a a = true) := by
  constructor
  · by_cases ha : a = 0 <;> by_cases hb : b = 0 <;>
      simp [amounts_match, ha, hb, abs_sub_comm, add_comm]
  · intro htol ha0
    by_cases ha : a = 0
    · simp [amounts_match, ha]
    · simp only [amounts_match, sub_self, abs_zero, zero_div]
      rw [if_neg (by simp [ha]), if_neg (by simp [ha])]
      simpa using htol

/-- Witness for C8 at tolerance 1/50 and amount 3. -/
theorem claim_C8_witness :
    (0 : ℚ) ≤ 1/50 ∧ (0 : ℚ) ≤ 3 ∧ amounts_match (1/50) 3 3 = true :=
  ⟨by norm_num, by norm_num,
    (claim_C8 (1/50) 3 3).2 (by norm_num) (by norm_num)⟩

/-- C9: a validation pass reads the record but never writes it — the
invoice component of the state is bit-for-bit unchanged by one pass, and
also by validating the same record a second time. -/
theorem claim_C9 (today : Int) (tol : ℚ) (st : ValState) :
    (validate_invoice_state today tol st).invoice = st.invoice ∧
    (validate_invoice_state today tol
      (validate_invoice_state today tol st)).invoice = st.invoice := by
  have key : ∀ s : ValState, (validate_invoice_state today tol s).invoice = s.invoice := by
    intro s
    have h1 := (ruleStep_pre today tol s).1
    have h2 := (anomalies_shape (validate_business_rules tol
      (validate_formats today (validate_completeness s)))).1
    simpa [validate_invoice_state] using h2.trans h1
  exact ⟨key st, (key _).trans (key st)⟩

/-- C2: every result produced by validating a batch has its validity flag
false exactly when its error list is non-empty; appending a warning never
changes the flag and appending an error always clears it. -/
theorem claim_C2 (today : Int) (tol : ℚ) (invs : List Invoice)
    (r : ValidationResult) (hr : r ∈ (validate_batch today tol invs).results) :
    (r.is_valid = true ↔ r.errors = []) ∧
    (∀ (r' : ValidationResult) (rule msg : String) (field : Option String),
      (add_warning r' rule msg field).is_valid = r'.is_valid ∧
      (add_error r' rule msg field).is_valid = false) := by
  constructor
  · have h := mem_batch_valid_iff today tol invs [] r (by simpa [validate_batch] using hr)
    rw [h]
    cases r.errors <;> simp
  · intro r' rule msg field
    exact ⟨rfl, rfl⟩

/-- Witness for C2: the single result of a concrete one-record batch. -/
theorem claim_C2_witness :
    ((validate_batch 0 (1/50) [invC]).results.headD emptyResult ∈
      (validate_batch 0 (1/50) [invC]).results) ∧
    (((validate_batch 0 (1/50) [invC]).results.headD emptyResult).is_valid = true ↔
      ((validate_batch 0 (1/50) [invC]).results.headD emptyResult).errors = []) :=
  ⟨by decide, (claim_C2 0 (1/50) [invC] _ (by decide)).1⟩

/-- C3: two records with equal duplicate keys (both with truthy invoice
number and seller name) submitted as one two-record batch: the first
result carries no `duplicate_invoice` error and the second does; submitted
as two separate batch calls, neither does (the seen-set is cleared at the
start of each call). -/
theorem claim_C3 (today : Int) (tol : ℚ) (i1 i2 : Invoice) (n1 s1 n2 s2 : String)
    (hn1 : i1.invoice_number = some n1) (hn1' : n1 ≠ "")
    (hs1 : i1.seller_name = some s1) (hs1' : s1 ≠ "")
    (hn2 : i2.invoice_number = some n2) (hn2' : n2 ≠ "")
    (hs2 : i2.seller_name = some s2) (hs2' : s2 ≠ "")
    (hkey : dup_key n1 s1 i1.invoice_date = dup_key n2 s2 i2.invoice_date) :
    (∃ r1 r2, (validate_batch today tol [i1, i2]).results = [r1, r2] ∧
      has_dup_error r1 = false ∧ has_dup_error r2 = true) ∧
    (∀ r ∈ (validate_batch today tol [i1]).results, has_dup_error r = false) ∧
    (∀ r ∈ (validate_batch today tol [i2]).results, has_dup_error r = false) := by
  obtain ⟨hfresh1, hseen1⟩ :=
    validate_invoice_fresh today tol i1 [] n1 s1 hn1 hs1 hn1' hs1'
      (List.not_mem_nil _)
  refine ⟨?_, ?_, ?_⟩
  · refine ⟨(validate_invoice today tol i1 []).1,
      (validate_invoice today tol i2 (validate_invoice today tol i1 []).2).1,
      rfl, hfresh1, ?_⟩
    have hmem2 : dup_key n2 s2 i2.invoice_date ∈ (validate_invoice today tol i1 []).2 := by
      rw [hseen1, ← hkey]
      simp
    exact (validate_invoice_dup today tol i2 _ n2 s2 hn2 hs2 hn2' hs2' hmem2).1
  · intro r hr
    simp only [validate_batch, validate_batch_results] at hr
    rcases List.mem_singleton.mp hr with rfl
    exact hfresh1
  · intro r hr
    simp only [validate_batch, validate_batch_results] at hr
    rcases List.mem_singleton.mp hr with rfl
    exact (validate_invoice_fresh today tol i2 [] n2 s2 hn2 hs2 hn2' hs2'
      (List.not_mem_nil _)).1

/-- Witness for C3: a concrete duplicate pair. -/
theorem claim_C3_witness :
    (∃ r1 r2, (validate_batch 0 (1/50) [invA, invA2]).results = [r1, r2] ∧
      has_dup_error r1 = false ∧ has_dup_error r2 = true) ∧
    (∀ r ∈ (validate_batch 0 (1/50) [invA]).results, has_dup_error r = false) :=
  ⟨(claim_C3 0 (1/50) invA invA2 "INV-1" "S1" "inv-1 " " s1"
      rfl (by decide) rfl (by decide) rfl (by decide) rfl (by decide)
      (by decide)).1,
   (claim_C3 0 (1/50) invA invA2 "INV-1" "S1" "inv-1 " " s1"
      rfl (by decide) rfl (by decide) rfl (by decide) rfl (by decide)
      (by decide)).2.1⟩

/-- Counterexample for C7: in a concrete batch of three records where
exactly one lacks the invoice date and the other two pass every
error-producing rule, the summary is `{total 3, valid 2, invalid 1}` but
the error-frequency table does NOT contain the key
`"invoice_date_required"`: the key is `"invoice_date_required: invoice_date"`
because the rule attaches a field. -/
theorem claim_C7_counterexample :
    (validate_batch 0 (1/50) [invA, invB, invC]).summary.total_invoices = 3 ∧
    (validate_batch 0 (1/50) [invA, invB, invC]).summary.valid_invoices = 2 ∧
    (validate_batch 0 (1/50) [invA, invB, invC]).summary.invalid_invoices = 1 ∧
    ((validate_batch 0 (1/50) [invA, invB, invC]).summary.error_counts).lookup
      "invoice_date_required" = none ∧
    (validate_batch 0 (1/50) [invA, invB, invC]).summary.error_counts =
      [("invoice_date_required: invoice_date", 1)] := by
  refine ⟨by decide, by decide, by decide, by decide, by decide⟩

/-- Summary of a three-result batch in which exactly one result carries
exactly one error `e` and the others carry none. -/
theorem summary_of_single_error (rs : List ValidationResult) (e : VError)
    (hlen : rs.length = 3)
    (hval : ∀ r ∈ rs, r.is_valid = r.errors.isEmpty)
    (h : (rs.map (fun r => r.errors)).filter (fun l => !l.isEmpty) = [[e]]) :
    (create_summary rs).total_invoices = 3 ∧
    (create_summary rs).valid_invoices = 2 ∧
    (create_summary rs).invalid_invoices = 1 ∧
    (create_summary rs).error_counts = dict_incr [] (err_key e) := by
  match rs, hlen with
  | [r1, r2, r3], _ =>
    have h1 := hval r1 (by simp)
    have h2 := hval r2 (by simp)
    have h3 := hval r3 (by simp)
    have hcounts : (create_summary [r1, r2, r3]).error_counts =
        (r1.errors ++ (r2.errors ++ r3.errors)).foldl
          (fun m e => dict_incr m (err_key e)) [] := by
      simp only [create_summary, foldl_foldl_flatMap]
      simp [List.flatMap]
    have hflat : [r1.errors, r2.errors, r3.errors].flatMap id = [e] :=
      flatten_of_filter_singleton e _ (by simpa using h)
    simp only [List.flatMap, List.map_id, List.flatten] at hflat
    simp only [List.map_cons, List.map_nil] at h
    simp only [id_eq] at hflat
    cases he1 : r1.errors with
    | cons a t =>
      rw [he1] at h hflat
      cases he2 : r2.errors with
      | cons b u =>
        rw [he2] at h
        simp [List.filter] at h
      | nil =>
        rw [he2] at h hflat
        cases he3 : r3.errors with
        | cons c v =>
          rw [he3] at h
          simp [List.filter] at h
        | nil =>
          rw [he3] at hflat
          simp at hflat
          obtain ⟨rfl, rfl⟩ := hflat
          refine ⟨rfl, ?_, ?_, ?_⟩
          · simp [create_summary, h1, h2, h3, he1, he2, he3]
          · simp [create_summary, h1, h2, h3, he1, he2, he3]
          · rw [hcounts, he1, he2, he3]
            rfl
    | nil =>
      rw [he1] at h hflat
      cases he2 : r2.errors with
      | cons b u =>
        rw [he2] at h hflat
        cases he3 : r3.errors with
        | cons c v =>
          rw [he3] at h
          simp [List.filter] at h
        | nil =>
          rw [he3] at hflat
          simp at hflat
          obtain ⟨rfl, rfl⟩ := hflat
          refine ⟨rfl, ?_, ?_, ?_⟩
          · simp [create_summary, h1, h2, h3, he1, he2, he3]
          · simp [create_summary, h1, h2, h3, he1, he2, he3]
          · rw [hcounts, he1, he2, he3]
            rfl
      | nil =>
        rw [he2] at h hflat
        cases he3 : r3.errors with
        | cons c v =>
          rw [he3] at hflat
          simp at hflat
          obtain ⟨rfl, rfl⟩ := hflat
          refine ⟨rfl, ?_, ?_, ?_⟩
          · simp [create_summary, h1, h2, h3, he1, he2, he3]
          · simp [create_summary, h1, h2, h3, he1, he2, he3]
          · rw [hcounts, he1, he2, he3]
            rfl
        | nil =>
          rw [he3] at h
          simp [List.filter] at h

/-- C7 (amended): for every batch of three records, exactly one of which
fails exactly the invoice-date rule while the other two pass every
error-producing rule, the summary is `{total 3, valid 2, invalid 1}` and
the error-frequency table holds the key
`"invoice_date_required: invoice_date"` (rule plus attached field) with
count 1 — not the bare rule name. -/
theorem claim_C7_amended (today : Int) (tol : ℚ) (i1 i2 i3 : Invoice)
    (h : (((validate_batch today tol [i1, i2, i3]).results.map
        (fun r => r.errors)).filter (fun l => !l.isEmpty)) = [[dateReqError]]) :
    (validate_batch today tol [i1, i2, i3]).summary.total_invoices = 3 ∧
    (validate_batch today tol [i1, i2, i3]).summary.valid_invoices = 2 ∧
    (validate_batch today tol [i1, i2, i3]).summary.invalid_invoices = 1 ∧
    ((validate_batch today tol [i1, i2, i3]).summary.error_counts).lookup
      "invoice_date_required: invoice_date" = some 1 ∧
    ((validate_batch today tol [i1, i2, i3]).summary.error_counts).lookup
      "invoice_date_required" = none := by
  have hlen : (validate_batch_results today tol [i1, i2, i3] []).length = 3 := rfl
  have hval : ∀ r ∈ validate_batch_results today tol [i1, i2, i3] [],
      r.is_valid = r.errors.isEmpty :=
    fun r hr => mem_batch_valid_iff today tol _ _ r hr
  obtain ⟨ht, hv, hi, hc⟩ := summary_of_single_error _ dateReqError hlen hval h
  have hsum : (validate_batch today tol [i1, i2, i3]).summary =
      create_summary (validate_batch_results today tol [i1, i2, i3] []) := rfl
  rw [hsum]
  refine ⟨ht, hv, hi, ?_, ?_⟩
  · rw [hc]; decide
  · rw [hc]; decide

/-- Witness for C7 (amended) on a concrete three-record batch. -/
theorem claim_C7_witness :
    ((((validate_batch 0 (1/50) [invA, invB, invC]).results.map
        (fun r => r.errors)).filter (fun l => !l.isEmpty)) = [[dateReqError]]) ∧
    ((validate_batch 0 (1/50) [invA, invB, invC]).summary.error_counts).lookup
      "invoice_date_required: invoice_date" = some 1 :=
  ⟨by decide, (claim_C7_amended 0 (1/50) invA invB invC (by decide)).2.2.2.1⟩

/-- Counterexample for C4: a token with a four-digit year parses, but the
same token written with a two-digit year parses under none of the layouts
— every layout in the list requires exactly four year digits, so no token
with a two-digit year ever normalizes. -/
theorem claim_C4_counterexample :
    parse_date "31.12.2020" = some ⟨2020, 12, 31⟩ ∧
    parse_date "31.12.20" = none ∧
    parse_date "31/12/20" = none ∧
    parse_date "31-12-20" = none ∧
    parse_date "12/31/20" = none ∧
    parse_date "20-12-31" = none := by
  refine ⟨by decide, by decide, by decide, by decide, by decide, by decide⟩

/-- C4 (amended): the date normalizer tries the ordered layout list
(day/month/year and month/day/year variants with `.`, `/`, `-` separators
and four-digit years only), returns the canonical date of the first layout
that parses, and returns the unparseable outcome — not an exception — when
no layout parses; a two-digit-year form of an otherwise parseable token is
unparseable. -/
theorem claim_C4_amended :
    (∀ s, parse_date s = none ↔ ∀ f ∈ date_formats, try_format f s = none) ∧
    (∀ s d, parse_date s = some d ↔
      ∃ l₁ f l₂, date_formats = l₁ ++ f :: l₂ ∧ try_format f s = some d ∧
        ∀ g ∈ l₁, try_format g s = none) ∧
    parse_date "05.06.2021" = some ⟨2021, 6, 5⟩ ∧
    parse_date "05.06.21" = none := by
  refine ⟨?_, ?_, by decide, by decide⟩
  · intro s
    simp only [parse_date]
    exact List.findSome?_eq_none_iff
  · intro s d
    simp only [parse_date]
    exact List.findSome?_eq_some_iff

/-- Counterexample for C5: a subtotal resolved from the text as exactly
zero is discarded (Python truthiness), so the derivation overwrites it —
the final net total is `gross - tax`, not the resolved zero; and a gross
total resolved as exactly zero suppresses the derivation entirely. -/
theorem claim_C5_counterexample :
    extract_amounts_assemble (some 10) none (some 0) (some 2) =
      ⟨some 10, some 8, some 2⟩ ∧
    (0 : ℚ) ≠ 8 ∧
    extract_amounts_assemble (some 0) none none (some 2) =
      ⟨none, none, some 2⟩ := by
  refine ⟨?_, by norm_num, ?_⟩
  · simp only [extract_amounts_assemble, resolved_gross, truthyQ]
    norm_num
  · simp only [extract_amounts_assemble, resolved_gross, truthyQ]
    norm_num

/-- C5 (amended): if the gross-total resolution and the tax search both
produce nonzero amounts and the subtotal search produced nothing truthy,
the extractor derives `net = gross - tax`; and a subtotal resolved as a
nonzero value is stored and never overwritten by the derivation. -/
theorem claim_C5_amended (grossFind : Option ℚ) (grossFb : Option (Option ℚ))
    (subFind taxFind : Option ℚ) :
    (∀ g t, resolved_gross grossFind grossFb = some g → g ≠ 0 →
      taxFind = some t → t ≠ 0 → truthyQ subFind = false →
      (extract_amounts_assemble grossFind grossFb subFind taxFind).net_total =
        some (g - t)) ∧
    (∀ s, subFind = some s → s ≠ 0 →
      (extract_amounts_assemble grossFind grossFb subFind taxFind).net_total =
        some s) := by
  constructor
  · intro g t hg hg0 ht ht0 hsub
    unfold extract_amounts_assemble
    rw [hg, ht, hsub]
    simp [truthyQ, hg0, ht0]
  · intro s hs hs0
    unfold extract_amounts_assemble
    rw [hs]
    have htr : truthyQ (some s) = true := by simp [truthyQ, hs0]
    simp only [htr, if_true, Bool.not_true, Bool.and_false, if_false]
    simp

/-- Witness for C5 (amended) at concrete search outcomes. -/
theorem claim_C5_witness :
    (resolved_gross (some 10) none = some 10 ∧ (10 : ℚ) ≠ 0 ∧ (2 : ℚ) ≠ 0 ∧
      truthyQ (none : Option ℚ) = false ∧
      (extract_amounts_assemble (some 10) none none (some 2)).net_total =
        some 8) ∧
    ((3 : ℚ) ≠ 0 ∧
      (extract_amounts_assemble (some 10) none (some 3) (some 2)).net_total =
        some 3) := by
  refine ⟨⟨by norm_num [resolved_gross, truthyQ], by norm_num, by norm_num, rfl, ?_⟩,
    by norm_num, ?_⟩
  · have h := (claim_C5_amended (some 10) none none (some 2)).1 10 2
      (by norm_num [resolved_gross, truthyQ]) (by norm_num) rfl (by norm_num) rfl
    rw [h]
    norm_num
  · exact (claim_C5_amended (some 10) none (some 3) (some 2)).2 3 rfl (by norm_num)

/-- Counterexample for C6: a data row with a non-empty description cell and
a parsed quantity (`"0"` parses to `0.0`) yields no line item, because the
emission test uses Python truthiness and `0.0` is falsy — emission needs a
NONZERO parsed total or quantity, not merely a parsed one. -/
theorem claim_C6_counterexample :
    extract_line_items_tables dec_str_q dec_str_q dec_str_q
      [[[some "Description", some "Qty"], [some "Widget", some "0"]]] =
      ([], false) ∧
    dec_str_q "0" = some 0 ∧
    clean_cell (some "Widget") ≠ "" ∧
    find_column_index [some "Description", some "Qty"] desc_keywords = some 0 ∧
    find_column_index [some "Description", some "Qty"] qty_keywords = some 1 := by
  refine ⟨by decide, by decide, by decide, by decide, by decide⟩

/-- The row loop body, rewritten for a well-shaped data row: it reduces to
a single emission decision. -/
theorem process_row_eq (qp pp tp : String → Option ℚ) (desc_col : ℕ)
    (qty_col price_col total_col : Option ℕ) (row : List (Option String))
    (d : String) (hne : row ≠ [])
    (htot : pyContains (pyLower ((row.map clean_cell).headD "")) "total" = false)
    (hd : (row.map clean_cell).get? desc_col = some d) :
    process_row qp pp tp desc_col qty_col price_col total_col row =
      (if pyReplaceChar '\n' [' '] d ≠ "" ∧
          (truthyQ (row_total tp (row.map clean_cell) total_col) = true ∨
           truthyQ (row_qty qp (row.map clean_cell) qty_col) = true) then
        Except.ok (some ⟨some (pyReplaceChar '\n' [' '] d),
          row_qty qp (row.map clean_cell) qty_col,
          row_price pp (row.map clean_cell) price_col,
          row_total tp (row.map clean_cell) total_col, none⟩)
      else Except.ok none) := by
  have hrow : row.isEmpty = false := by
    cases row with
    | nil => exact absurd rfl hne
    | cons a t => rfl
  unfold process_row
  rw [hrow]
  simp only [Bool.false_eq_true, if_false, htot]
  rw [hd]

/-- C6 (amended): for a data row of a processed table — non-empty, not a
`total` footer row, with a description cell in range — a line item is
emitted iff the (newline-collapsed) description is non-empty and the row
has a nonzero parsed line total or a nonzero parsed quantity; the emitted
item's three numeric sub-fields are exactly the three independent cell
parses, so one failed parse only leaves that sub-field absent; and a row
whose first cell's lowercased text contains `total` is always skipped. -/
theorem claim_C6_amended (qp pp tp : String → Option ℚ) (desc_col : ℕ)
    (qty_col price_col total_col : Option ℕ) (row : List (Option String)) :
    (∀ d, row ≠ [] →
      pyContains (pyLower ((row.map clean_cell).headD "")) "total" = false →
      (row.map clean_cell).get? desc_col = some d →
      (((∃ item, process_row qp pp tp desc_col qty_col price_col total_col row =
            Except.ok (some item)) ↔
          (pyReplaceChar '\n' [' '] d ≠ "" ∧
            (truthyQ (row_total tp (row.map clean_cell) total_col) = true ∨
             truthyQ (row_qty qp (row.map clean_cell) qty_col) = true))) ∧
        (∀ item, process_row qp pp tp desc_col qty_col price_col total_col row =
            Except.ok (some item) →
          item = ⟨some (pyReplaceChar '\n' [' '] d),
            row_qty qp (row.map clean_cell) qty_col,
            row_price pp (row.map clean_cell) price_col,
            row_total tp (row.map clean_cell) total_col, none⟩))) ∧
    (row ≠ [] →
      pyContains (pyLower ((row.map clean_cell).headD "")) "total" = true →
      process_row qp pp tp desc_col qty_col price_col total_col row =
        Except.ok none) := by
  constructor
  · intro d hne htot hd
    rw [process_row_eq qp pp tp desc_col qty_col price_col total_col row d hne htot hd]
    constructor
    · constructor
      · rintro ⟨item, hitem⟩
        by_contra hcond
        rw [if_neg hcond] at hitem
        simp at hitem
      · intro hcond
        rw [if_pos hcond]
        exact ⟨_, rfl⟩
    · intro item hitem
      split at hitem
      · simpa using hitem.symm
      · exact absurd hitem (by simp)
  · intro hne htot
    have hrow : row.isEmpty = false := by
      cases row with
      | nil => exact absurd rfl hne
      | cons a t => rfl
    simp only [process_row, hrow]
    rw [htot]
    simp

/-- Witness for C6 (amended): a concrete `Total` footer row is skipped, and
a concrete data row with a nonzero quantity is emitted. -/
theorem claim_C6_witness :
    (([some "Total", some "100"] : List (Option String)) ≠ [] ∧
     pyContains (pyLower ((([some "Total", some "100"] :
       List (Option String)).map clean_cell).headD "")) "total" = true ∧
     process_row dec_str_q dec_str_q dec_str_q 0 none none (some 1)
       [some "Total", some "100"] = Except.ok none) ∧
    (([some "Widget", some "5"] : List (Option String)) ≠ [] ∧
     ∃ item, process_row dec_str_q dec_str_q dec_str_q 0 (some 1) none none
       [some "Widget", some "5"] = Except.ok (some item)) :=
  ⟨⟨by decide, by decide,
     (claim_C6_amended dec_str_q dec_str_q dec_str_q 0 none none (some 1)
       [some "Total", some "100"]).2 (by decide) (by decide)⟩,
   ⟨by decide,
     (((claim_C6_amended dec_str_q dec_str_q dec_str_q 0 (some 1) none none
       [some "Widget", some "5"]).1 "Widget" (by decide) (by decide)
         (by decide)).1).mpr ⟨by decide, Or.inr (by decide)⟩⟩⟩

/-- C10: currency resolution always returns one of the four codes and
never the absent value; a known symbol anywhere in the text wins first (in
the fixed mapping order dollar, euro, pound, rupee), else the first enum
code (EUR, USD, INR, GBP) occurring as a whole word wins, else the result
is exactly `"USD"`. -/
theorem claim_C10 (text : String) :
    (extract_currency text ∈ ["USD", "EUR", "GBP", "INR"]) ∧
    ('$' ∈ text.data → extract_currency text = "USD") ∧
    ('€' ∈ text.data → '$' ∉ text.data → extract_currency text = "EUR") ∧
    ('£' ∈ text.data → '$' ∉ text.data → '€' ∉ text.data →
      extract_currency text = "GBP") ∧
    ('₹' ∈ text.data → '$' ∉ text.data → '€' ∉ text.data → '£' ∉ text.data →
      extract_currency text = "INR") ∧
    ('$' ∉ text.data → '€' ∉ text.data → '£' ∉ text.data → '₹' ∉ text.data →
      (whole_word "EUR" text = true → extract_currency text = "EUR") ∧
      (whole_word "EUR" text = false → whole_word "USD" text = true →
        extract_currency text = "USD") ∧
      (whole_word "EUR" text = false → whole_word "USD" text = false →
        whole_word "INR" text = true → extract_currency text = "INR") ∧
      (whole_word "EUR" text = false → whole_word "USD" text = false →
        whole_word "INR" text = false → whole_word "GBP" text = true →
        extract_currency text = "GBP") ∧
      (whole_word "EUR" text = false → whole_word "USD" text = false →
        whole_word "INR" text = false → whole_word "GBP" text = false →
        extract_currency text = "USD")) := by
  refine ⟨?_, ?_, ?_, ?_, ?_, ?_⟩
  · unfold extract_currency
    cases h1 : currency_symbols.find? (fun p => text.data.contains p.1) with
    | some p =>
      have hp := List.mem_of_find?_eq_some h1
      fin_cases hp <;> simp
    | none =>
      cases h2 : currency_enum.find? (fun c => whole_word c text) with
      | some c =>
        have hc := List.mem_of_find?_eq_some h2
        fin_cases hc <;> simp
      | none => simp
  · intro h
    simp [extract_currency, currency_symbols, List.find?, h]
  · intro h hn1
    simp [extract_currency, currency_symbols, List.find?, h, hn1]
  · intro h hn1 hn2
    simp [extract_currency, currency_symbols, List.find?, h, hn1, hn2]
  · intro h hn1 hn2 hn3
    simp [extract_currency, currency_symbols, List.find?, h, hn1, hn2, hn3]
  · intro hn1 hn2 hn3 hn4
    refine ⟨?_, ?_, ?_, ?_, ?_⟩ <;> intros <;>
      simp_all [extract_currency, currency_symbols, currency_enum, List.find?]

/-- Witness for C10 on concrete texts. -/
theorem claim_C10_witness :
    ('€' ∈ "total € 100".data ∧ '$' ∉ "total € 100".data ∧
      extract_currency "total € 100" = "EUR") ∧
    extract_currency "amount due 100 usd" = "USD" :=
  ⟨⟨by decide, by decide,
     (claim_C10 "total € 100").2.2.1 (by decide) (by decide)⟩,
   by
     have h := ((claim_C10 "amount due 100 usd").2.2.2.2.2
       (by decide) (by decide) (by decide) (by decide)).2.1
     exact h (by decide) (by decide)⟩
